import Mathlib

/-!
Verification of the anti-forensics web application.

The Angular frontend component `AntiForensicsDetectorComponent`
(src/frontend/src/app/pages/anti-forensics-detector/anti-forensics-detector.ts)
and the `FileSizePipe` (src/frontend/src/app/pages/evidence-upload/evidence-upload.ts)
are embedded shallowly below: component state is an explicit record, each
handler is a pure function from state (and its input) to the new state
together with the alert message it raises and the HTTP request it issues,
if any.  JavaScript truthiness on optional values (`x || d`) is modelled
explicitly: `undefined`/`null` and the empty string are falsy, while every
array - including the empty array - is truthy.  JavaScript `number` values
carried by API payloads are modelled as exact rationals, and the
floating-point expression `Math.floor(Math.log b / Math.log 1024)` on a
positive integer `b` is modelled by the exact integer logarithm
`Nat.log 1024 b`.

The detection engine itself (stream enumerator, classifier, risk scorer,
orchestrator) is not part of the source bundle; the definitions for those
components are modelled from the specification and are marked as such in
their doc comments.
-/

/-! ## Severity buckets (anti-forensics-detector.ts, calculateSeverity) -/

inductive Severity where
  | Critical
  | High
  | Medium
  | Low
deriving DecidableEq, Repr

/-- Embedding of `calculateSeverity` (anti-forensics-detector.ts, lines 381-391).
The risk score is a JS `number`, modelled as an exact rational. -/
def calculateSeverity (riskScore : ℚ) : Severity :=
  if riskScore ≥ 80 then .Critical
  else if riskScore ≥ 60 then .High
  else if riskScore ≥ 30 then .Medium
  else .Low

/-! ## Byte-size formatting (formatSize and FileSizePipe.transform) -/

/-- JS string coercion of a possibly-undefined string: `undefined` renders
as the text "undefined" when concatenated. -/
def jsToString (o : Option String) : String :=
  o.getD "undefined"

/-- Embedding of `parseFloat(q.toFixed(2))` rendered back to a string, for a
nonnegative rational `q`: round to two decimals (half away from zero) and
drop trailing fraction zeros, as `parseFloat` does. -/
def toFixed2ParseFloat (q : ℚ) : String :=
  let n : ℕ := (q * 100 + 1 / 2).floor.toNat
  let ip := n / 100
  let fr := n % 100
  if fr = 0 then toString ip
  else if fr % 10 = 0 then toString ip ++ "." ++ toString (fr / 10)
  else if fr < 10 then toString ip ++ ".0" ++ toString fr
  else toString ip ++ "." ++ toString fr

/-- The unit index `Math.floor(Math.log bytes / Math.log 1024)` computed by
both size formatters, under exact real logarithms: the greatest `i` with
`1024 ^ i ≤ bytes` (for `bytes ≥ 1`). -/
def sizeIndex (bytes : ℕ) : ℕ :=
  Nat.log 1024 bytes

/-- Embedding of `formatSize` (anti-forensics-detector.ts, lines 134-140).
Its unit array has four entries; `sizes[i]` for `i ≥ 4` is `undefined`. -/
def formatSize (bytes : ℕ) : String :=
  if bytes = 0 then "0 B"
  else
    let i := sizeIndex bytes
    toFixed2ParseFloat ((bytes : ℚ) / 1024 ^ i) ++ " " ++
      jsToString (["B", "KB", "MB", "GB"].get? i)

/-- Embedding of `FileSizePipe.transform` (evidence-upload.ts, lines 14-23).
Same formula as `formatSize` but with a five-entry unit array. -/
def fileSizeTransform (bytes : ℕ) : String :=
  if bytes = 0 then "0 Bytes"
  else
    let i := sizeIndex bytes
    toFixed2ParseFloat ((bytes : ℚ) / 1024 ^ i) ++ " " ++
      jsToString (["Bytes", "KB", "MB", "GB", "TB"].get? i)

/-! ## Data model of the detector component (anti-forensics-detector.ts) -/

/-- TS interface `StreamData`. Optional fields are `Option`; JS numbers are
exact rationals; ISO date strings stay strings. -/
structure StreamData where
  name : String
  size_bytes : ℕ
  stream_type : String
  risk_score : ℚ
  content_preview : Option String := none
  is_executable : Option Bool := none
  is_encrypted : Option Bool := none
  hash_md5 : Option String := none
  hash_sha256 : Option String := none
  entropy : Option ℚ := none
  creation_time : Option String := none
  modification_time : Option String := none
deriving DecidableEq, Repr

/-- TS interface `RiskAssessment.details`. -/
structure RiskDetails where
  total_streams : ℕ
  critical_streams : ℕ
  high_risk_streams : ℕ
  medium_risk_streams : ℕ
  low_risk_streams : ℕ
  executable_streams : ℕ
  encrypted_streams : ℕ
  total_size_bytes : ℕ
  total_size_human : String
deriving DecidableEq, Repr

/-- TS interface `RiskAssessment` as received by the frontend. -/
structure RiskAssessment where
  risk_level : String
  score : ℚ
  description : String
  details : Option RiskDetails := none
deriving DecidableEq, Repr

/-- TS interface `ScanSummary` (also the shape of the orchestrator rollup). -/
structure ScanSummary where
  total_files_scanned : ℕ
  files_with_ads : ℕ
  total_ads_streams : ℕ
  scan_timestamp : String
deriving DecidableEq, Repr

/-- TS interface `AnalysisResult` (one row of the results table). -/
structure AnalysisResult where
  indicator : String
  description : String
  severity : Severity
  confidence : ℚ
  details : String
  content_preview : Option String := none
deriving DecidableEq, Repr

/-- The `data` member of TS interface `ApiResponse`.  The untyped
`analysis_methods: any[]` and the `platform`/`timestamp` strings are not
read by any handler and are omitted. -/
structure ApiData where
  ads_found : Option Bool := none
  streams : Option (List StreamData) := none
  risk_assessment : Option RiskAssessment := none
  recommendations : Option (List String) := none
  summary : Option String := none
  file_path : Option String := none
  total_streams : Option ℕ := none
  error : Option String := none
  scan_summary : Option ScanSummary := none
deriving DecidableEq, Repr

/-- TS interface `ApiResponse`. -/
structure ApiResponse where
  success : Bool
  filename : Option String := none
  data : Option ApiData := none
  detail : Option String := none
  selected_detectors : Option (List String) := none
  message : Option String := none
  error : Option String := none
deriving DecidableEq, Repr

/-- Body of an Angular `HttpErrorResponse` as read by `handleApiError`:
`error.error?.detail` and `error.error?.error`. -/
structure ErrorBody where
  detail : Option String := none
  error : Option String := none
deriving DecidableEq, Repr

/-- Angular `HttpErrorResponse`, restricted to the members the component
reads: `status`, `message` and the parsed `error` body. -/
structure HttpError where
  status : ℕ
  message : String
  error : Option ErrorBody := none
deriving DecidableEq, Repr

/-- The mutable fields of `AntiForensicsDetectorComponent`. -/
structure ComponentState where
  analysisPath : String
  selectedDetectors : List String
  selectedADSMethods : List String
  analysisResults : List AnalysisResult
  riskAssessment : Option RiskAssessment
  recommendations : List String
  summary : String
  selectedFile : Option String
  isLoading : Bool
  isScanningDirectory : Bool
deriving DecidableEq, Repr

/-- JSON body of `POST /api/ads/detect` as built by `analyzePath`;
`use_win32api = none` models the field being absent from the object. -/
structure DetectPayload where
  file_path : String
  selected_detectors : List String
  use_win32api : Option Bool
  scan_directory : Bool
deriving DecidableEq, Repr

/-- An HTTP request issued by the component. -/
inductive Request where
  | upload (fileName : String) (detectors : List String)
  | detect (payload : DetectPayload)
deriving DecidableEq, Repr

/-! ## JS truthiness helpers -/

/-- JS `a || d` where `a` is a possibly-undefined array: `undefined` is
falsy, every array (empty included) is truthy. -/
def jsOrArr {α : Type} (o : Option (List α)) (d : List α) : List α :=
  match o with
  | none => d
  | some l => l

/-- JS `a || d` where `a` is a possibly-undefined string: `undefined` and
the empty string are falsy. -/
def jsOrStr (o : Option String) (d : String) : String :=
  match o with
  | none => d
  | some s => if s = "" then d else s

/-- JS `a || d` where `a` is a possibly-undefined number: `undefined` and
`0` are falsy. -/
def jsOrNat (o : Option ℕ) (d : ℕ) : ℕ :=
  match o with
  | none => d
  | some n => if n = 0 then d else n

/-- JS chain `a₁ || a₂ || ... || d` over possibly-undefined strings. -/
def firstTruthyStr : List (Option String) → String → String
  | [], d => d
  | o :: rest, d =>
    match o with
    | none => firstTruthyStr rest d
    | some s => if s = "" then firstTruthyStr rest d else s

/-! ## Component methods (anti-forensics-detector.ts) -/

/-- Embedding of `entropy.toFixed(2)`: two decimals, trailing zeros kept,
for a nonnegative rational. -/
def toFixed2 (q : ℚ) : String :=
  let n : ℕ := (q * 100 + 1 / 2).floor.toNat
  toString (n / 100) ++ "." ++
    (if n % 100 < 10 then "0" ++ toString (n % 100) else toString (n % 100))

/-- Embedding of `formatStreamDetails` (lines 393-430).  JS renders the
numeric risk score via its default number-to-string conversion, modelled by
the rational's `toString`; `new Date(s).toLocaleString()` is modelled as the
stored date string itself. -/
def formatStreamDetails (stream : StreamData) : String :=
  let d0 := "Name: " ++ stream.name ++ "\n"
    ++ "Type: " ++ stream.stream_type ++ "\n"
    ++ "Size: " ++ formatSize stream.size_bytes ++ "\n"
    ++ "Risk Score: " ++ toString stream.risk_score ++ "/100\n"
  let d1 := d0 ++ (match stream.is_executable with
    | none => ""
    | some b => "Executable: " ++ (if b then "Yes" else "No") ++ "\n")
  let d2 := d1 ++ (match stream.is_encrypted with
    | none => ""
    | some b => "Encrypted: " ++ (if b then "Yes" else "No") ++ "\n")
  let d3 := d2 ++ (match stream.entropy with
    | none => ""
    | some e => "Entropy: " ++ toFixed2 e ++ "\n")
  let d4 := d3 ++ (match stream.hash_md5 with
    | none => ""
    | some s => if s = "" then "" else "MD5: " ++ s ++ "\n")
  let d5 := d4 ++ (match stream.hash_sha256 with
    | none => ""
    | some s => if s = "" then "" else "SHA256: " ++ s ++ "\n")
  let d6 := d5 ++ (match stream.creation_time with
    | none => ""
    | some s => if s = "" then "" else "Created: " ++ s ++ "\n")
  d6 ++ (match stream.modification_time with
    | none => ""
    | some s => if s = "" then "" else "Modified: " ++ s ++ "\n")

/-- Embedding of `isADSSelected` (lines 183-185). -/
def isADSSelected (st : ComponentState) : Bool :=
  st.selectedDetectors.contains "ads_detector"

/-- Embedding of `handleADSResponse` (lines 325-354): returns the updated
state and the alert message raised. -/
def handleADSResponse (st : ComponentState) (data : ApiData) :
    ComponentState × String :=
  let targetName := match st.selectedFile with
    | some n => n
    | none => st.analysisPath
  if data.ads_found ≠ some true then
    ({st with
        summary := "No ADS streams found in " ++ targetName,
        recommendations := jsOrArr data.recommendations ["No action required"]},
     "Analysis complete for " ++ targetName ++ ". No ADS streams found.")
  else
    let st1 := match data.streams with
      | some streams =>
        if streams.length > 0 then
          {st with analysisResults := streams.map (fun (stream : StreamData) =>
            { indicator := stream.name,
              description := stream.stream_type ++ " | Size: "
                ++ formatSize stream.size_bytes,
              severity := calculateSeverity stream.risk_score,
              confidence := stream.risk_score,
              details := formatStreamDetails stream,
              content_preview := stream.content_preview })}
        else st
      | none => st
    let n := jsOrNat data.total_streams 0
    ({st1 with
        riskAssessment := data.risk_assessment,
        recommendations := jsOrArr data.recommendations [],
        summary := jsOrStr data.summary
          ("Found " ++ toString n ++ " ADS streams")},
     "Analysis complete for " ++ targetName ++ ". Found "
       ++ toString n ++ " ADS streams.")

/-- Embedding of `handleOtherDetectorResponse` (lines 356-360). -/
def handleOtherDetectorResponse (st : ComponentState) (_data : ApiData) :
    ComponentState × String :=
  (st, "Other detector analysis completed (not yet implemented fully).")

/-- Embedding of `handleApiResponse` (lines 305-323). -/
def handleApiResponse (st : ComponentState) (response : ApiResponse) :
    ComponentState × String :=
  let st1 := {st with isLoading := false}
  match response.success, response.data with
  | true, some data =>
    if data.ads_found ≠ none then handleADSResponse st1 data
    else handleOtherDetectorResponse st1 data
  | _, _ =>
    (st1, "Analysis failed: " ++
      firstTruthyStr
        [response.detail, response.data.bind ApiData.error,
         response.error, response.message]
        "Unknown error")

/-- Embedding of `handleApiError` (lines 362-379). -/
def handleApiError (st : ComponentState) (err : HttpError) :
    ComponentState × String :=
  let st1 := {st with isLoading := false}
  if err.status = 0 then
    (st1, "Cannot connect to the backend server. Please make sure the Flask server is running on port 5000.")
  else if err.status = 400 then
    (st1, "Bad request: " ++
      firstTruthyStr
        [err.error.bind ErrorBody.detail, err.error.bind ErrorBody.error]
        "Invalid request")
  else if err.status = 404 then
    (st1, "File or endpoint not found. Please check the path and ensure the API is running.")
  else if err.status = 500 then
    (st1, "Server error: " ++
      firstTruthyStr
        [err.error.bind ErrorBody.detail, err.error.bind ErrorBody.error]
        "Internal server error")
  else
    (st1, "Error " ++ toString err.status ++ ": " ++ err.message)

/-- The directory check of `analyzePath` (lines 266-269): the path
contains or ends with a path separator. -/
def pathIsDirectory (path : String) : Bool :=
  path.contains '\\' || path.contains '/'
    || path.endsWith "\\" || path.endsWith "/"

/-- Embedding of `analyzePath` (lines 264-303): returns the updated state
and the JSON body sent to `POST /api/ads/detect`. -/
def analyzePath (st : ComponentState) : ComponentState × DetectPayload :=
  let isDirectory := pathIsDirectory st.analysisPath
  let st1 := {st with isScanningDirectory := isDirectory}
  let payload :=
    if isADSSelected st then
      { file_path := st.analysisPath.trim,
        selected_detectors := st.selectedADSMethods,
        use_win32api := some (st.selectedADSMethods.contains "win32api"),
        scan_directory := isDirectory }
    else
      { file_path := st.analysisPath.trim,
        selected_detectors := st.selectedDetectors,
        use_win32api := none,
        scan_directory := isDirectory }
  (st1, payload)

/-- Embedding of `analyzeFile` (lines 242-262): the multipart request sent
to `POST /api/ads/upload-and-detect`. -/
def analyzeFile (st : ComponentState) : Request :=
  .upload (st.selectedFile.getD "")
    (if isADSSelected st then st.selectedADSMethods else st.selectedDetectors)

/-- Embedding of `runAnalysis` (lines 205-240): returns the final state,
the HTTP request issued (if any), and the validation alert raised (if any).
The `try`/`catch` wrapper has no effect in the model, where the two
`analyze*` calls cannot throw. -/
def runAnalysis (st : ComponentState) :
    ComponentState × Option Request × Option String :=
  if st.analysisPath.trim = "" ∧ st.selectedFile = none then
    (st, none,
     some "Please enter a file or directory path, or upload a file to analyze.")
  else if st.selectedDetectors = [] then
    (st, none, some "Please select at least one detection option.")
  else if isADSSelected st = true ∧ st.selectedADSMethods = [] then
    (st, none, some "Please select at least one ADS detection method.")
  else
    let st1 := {st with
      analysisResults := [], riskAssessment := none,
      recommendations := [], summary := "", isLoading := true}
    match st.selectedFile with
    | some _ => (st1, some (analyzeFile st1), none)
    | none =>
      let (st2, payload) := analyzePath st1
      (st2, some (.detect payload), none)

/-! ## Spec-modelled detection engine

The detection engine called through `/api/ads/*` is not part of the source
bundle; only its client-side contract is.  The definitions below are
modelled from the specification (sections 3, 4.3, 4.5, 7 and 8 of spec.md).
-/

/-- Modelled from the spec: a `StreamRecord` as consumed by the risk
scorer (spec section 3); the fields not used by aggregation carry the
per-stream signals, and `risk_score` is the scorer's 0-100 output. -/
structure StreamRecord where
  name : String
  size_bytes : ℕ
  is_executable : Bool
  is_encrypted : Bool
  risk_score : ℕ
deriving DecidableEq, Repr

/-- Modelled from the spec: the aggregate `RiskAssessment.score` of a
target, "overall score = a defined combination (e.g., max of stream
scores)" (spec section 4.3), taken as the maximum of the per-stream
scores (0 for an empty stream set). -/
def aggregateScore (streams : List StreamRecord) : ℕ :=
  (streams.map StreamRecord.risk_score).foldr max 0

/-- Modelled from the spec: the per-file outcome seen by the orchestrator
during a directory scan - either a scanned file (did it carry alternate
streams, and how many) or a file skipped with `PermissionDenied`
(spec sections 4.1, 4.5, 7). -/
inductive FileScan where
  | ok (adsFound : Bool) (nStreams : ℕ)
  | permissionDenied
deriving DecidableEq, Repr

/-- Modelled from the spec: the orchestrator's state machine
`Pending → Enumerating → Classifying → Scoring → Complete`, with a
`Failed` terminal state for target-level fatal errors (spec section 4.5). -/
inductive OrchestratorState where
  | Pending
  | Enumerating
  | Classifying
  | Scoring
  | Complete
  | Failed
deriving DecidableEq, Repr

/-- Modelled from the spec: folding one per-file outcome into the running
`ScanSummary`.  A permission-denied file is recorded in the scanned count
(spec section 7: "every skipped file is recorded in the ScanSummary
counts") but contributes to neither `files_with_ads` nor
`total_ads_streams`. -/
def scanDirectoryStep (acc : ScanSummary) (f : FileScan) : ScanSummary :=
  match f with
  | .ok adsFound nStreams =>
    { acc with
        total_files_scanned := acc.total_files_scanned + 1,
        files_with_ads := acc.files_with_ads + (if adsFound then 1 else 0),
        total_ads_streams := acc.total_ads_streams + nStreams }
  | .permissionDenied =>
    { acc with total_files_scanned := acc.total_files_scanned + 1 }

/-- Modelled from the spec: `scan_directory` (spec section 4.5).  A
missing target is a target-level fatal error ending in `Failed`; otherwise
every per-file outcome - including per-file permission errors - is folded
into the summary and the orchestrator terminates in `Complete`. -/
def scanDirectory (targetExists : Bool) (files : List FileScan)
    (timestamp : String) : ScanSummary × OrchestratorState :=
  if targetExists then
    (files.foldl scanDirectoryStep
      { total_files_scanned := 0, files_with_ads := 0,
        total_ads_streams := 0, scan_timestamp := timestamp },
     .Complete)
  else
    ({ total_files_scanned := 0, files_with_ads := 0,
       total_ads_streams := 0, scan_timestamp := timestamp },
     .Failed)

/-- Modelled from the spec: the classifier's "Shannon entropy over the
byte histogram" in natural-log units (spec section 4.2); the content is a
byte sequence, the histogram the count of each of the 256 byte values. -/
noncomputable def entropyNats (c : List (Fin 256)) : ℝ :=
  ∑ v : Fin 256, Real.negMulLog ((c.count v : ℝ) / (c.length : ℝ))

/-- Modelled from the spec: `entropy(content)` in bits per byte, range
0-8 (spec sections 4.2 and 8). -/
noncomputable def entropy (c : List (Fin 256)) : ℝ :=
  entropyNats c / Real.log 2

/-! ## Theorems -/

/-- C1: for every risk score in [0,100], `calculateSeverity` is total and
returns exactly one of Critical/High/Medium/Low, with Critical iff
score ≥ 80, High iff 60 ≤ score < 80, Medium iff 30 ≤ score < 60, and Low
otherwise (score < 30). -/
theorem calculateSeverity_buckets (s : ℚ) (h0 : 0 ≤ s) (h100 : s ≤ 100) :
    (calculateSeverity s = .Critical ↔ 80 ≤ s) ∧
    (calculateSeverity s = .High ↔ 60 ≤ s ∧ s < 80) ∧
    (calculateSeverity s = .Medium ↔ 30 ≤ s ∧ s < 60) ∧
    (calculateSeverity s = .Low ↔ s < 30) := by
  unfold calculateSeverity
  split_ifs with h1 h2 h3 <;>
    refine ⟨?_, ?_, ?_, ?_⟩ <;> simp <;>
      first
        | linarith
        | (intro h; linarith)
        | (constructor <;> linarith)

/-- Witness for C1 at the concrete score 85. -/
theorem calculateSeverity_buckets_witness :
    (0 : ℚ) ≤ 85 ∧ (85 : ℚ) ≤ 100 ∧
      ((calculateSeverity 85 = .Critical ↔ (80 : ℚ) ≤ 85) ∧
       (calculateSeverity 85 = .High ↔ (60 : ℚ) ≤ 85 ∧ (85 : ℚ) < 80) ∧
       (calculateSeverity 85 = .Medium ↔ (30 : ℚ) ≤ 85 ∧ (85 : ℚ) < 60) ∧
       (calculateSeverity 85 = .Low ↔ (85 : ℚ) < 30)) :=
  ⟨by norm_num, by norm_num,
    calculateSeverity_buckets 85 (by norm_num) (by norm_num)⟩

/-- The unit index is below 4 exactly on bytes below 1024^4. -/
theorem sizeIndex_lt_four {b : ℕ} (hb : 0 < b) (hlt : b < 1024 ^ 4) :
    sizeIndex b < 4 :=
  Nat.log_lt_of_lt_pow (Nat.pos_iff_ne_zero.mp hb) hlt

/-- C9: `formatSize 0 = "0 B"`; every byte count in (0, 1024^4) is rendered
with one of the four defined units B/KB/MB/GB; for byte counts at or above
1024^4 the computed unit index is at least 4, past the end of the
four-element unit array, whose lookup is therefore undefined. -/
theorem formatSize_units :
    formatSize 0 = "0 B" ∧
    (∀ b : ℕ, 0 < b → b < 1024 ^ 4 →
      ∃ u ∈ ["B", "KB", "MB", "GB"],
        formatSize b = toFixed2ParseFloat ((b : ℚ) / 1024 ^ sizeIndex b) ++ " " ++ u) ∧
    (∀ b : ℕ, 1024 ^ 4 ≤ b →
      4 ≤ sizeIndex b ∧ ["B", "KB", "MB", "GB"].get? (sizeIndex b) = none) := by
  refine ⟨rfl, ?_, ?_⟩
  · intro b hb hlt
    have hb0 : b ≠ 0 := Nat.pos_iff_ne_zero.mp hb
    have h4 : sizeIndex b < 4 := sizeIndex_lt_four hb hlt
    have hmem : ∃ u, ["B", "KB", "MB", "GB"].get? (sizeIndex b) = some u := by
      interval_cases h : sizeIndex b <;> exact ⟨_, rfl⟩
    obtain ⟨u, hu⟩ := hmem
    refine ⟨u, ?_, ?_⟩
    · have := List.get?_mem hu
      simpa using this
    · have hu' : ["B", "KB", "MB", "GB"][sizeIndex b]? = some u := by
        rw [← List.get?_eq_getElem?]; exact hu
      simp [formatSize, hb0, hu', jsToString]
  · intro b hge
    have h4 : 4 ≤ sizeIndex b := Nat.le_log_of_pow_le (by norm_num) hge
    exact ⟨h4, List.get?_eq_none.mpr (by simpa using h4)⟩

/-- Witness for C9 at the concrete byte counts 2048 and 1024^4. -/
theorem formatSize_units_witness :
    (0 < 2048 ∧ 2048 < 1024 ^ 4 ∧
      ∃ u ∈ ["B", "KB", "MB", "GB"],
        formatSize 2048 =
          toFixed2ParseFloat ((2048 : ℚ) / 1024 ^ sizeIndex 2048) ++ " " ++ u) ∧
    (1024 ^ 4 ≤ 1024 ^ 4 ∧ 4 ≤ sizeIndex (1024 ^ 4) ∧
      ["B", "KB", "MB", "GB"].get? (sizeIndex (1024 ^ 4)) = none) :=
  ⟨⟨by norm_num, by norm_num,
     formatSize_units.2.1 2048 (by norm_num) (by norm_num)⟩,
   ⟨le_refl _, formatSize_units.2.2 (1024 ^ 4) (le_refl _)⟩⟩

/-- C10: on [1024, 1024^4) the two size formatters return identical
strings; at 0 and on (0, 1024) they differ only in the unit label
("B" versus "Bytes"). -/
theorem formatSize_eq_fileSizeTransform :
    (∀ b : ℕ, 1024 ≤ b → b < 1024 ^ 4 → formatSize b = fileSizeTransform b) ∧
    (formatSize 0 = "0 B" ∧ fileSizeTransform 0 = "0 Bytes") ∧
    (∀ b : ℕ, 0 < b → b < 1024 →
      ∃ p : String, formatSize b = p ++ " " ++ "B" ∧
        fileSizeTransform b = p ++ " " ++ "Bytes") := by
  refine ⟨?_, ⟨rfl, rfl⟩, ?_⟩
  · intro b hb hlt
    have hb0 : b ≠ 0 := by omega
    have h1 : 1 ≤ sizeIndex b := Nat.le_log_of_pow_le (by norm_num) (by simpa using hb)
    have h4 : sizeIndex b < 4 := sizeIndex_lt_four (by omega) hlt
    have hunit : jsToString (["B", "KB", "MB", "GB"].get? (sizeIndex b)) =
        jsToString (["Bytes", "KB", "MB", "GB", "TB"].get? (sizeIndex b)) := by
      interval_cases h : sizeIndex b <;> rfl
    unfold formatSize fileSizeTransform
    rw [if_neg hb0, if_neg hb0]
    simpa using congrArg
      (fun s => toFixed2ParseFloat ((b : ℚ) / 1024 ^ sizeIndex b) ++ " " ++ s)
      (by simpa using hunit)
  · intro b hb hlt
    have hb0 : b ≠ 0 := by omega
    have h0 : sizeIndex b = 0 := by
      unfold sizeIndex
      exact Nat.log_eq_zero_iff.mpr (Or.inl hlt)
    refine ⟨toFixed2ParseFloat ((b : ℚ) / 1024 ^ sizeIndex b), ?_, ?_⟩
    · simp [formatSize, hb0, h0, jsToString]
    · simp [fileSizeTransform, hb0, h0, jsToString]

/-- Witness for C10 at the concrete byte counts 1048576 and 512. -/
theorem formatSize_eq_fileSizeTransform_witness :
    (1024 ≤ 1048576 ∧ 1048576 < 1024 ^ 4 ∧
      formatSize 1048576 = fileSizeTransform 1048576) ∧
    (0 < 512 ∧ 512 < 1024 ∧
      ∃ p : String, formatSize 512 = p ++ " " ++ "B" ∧
        fileSizeTransform 512 = p ++ " " ++ "Bytes") :=
  ⟨⟨by norm_num, by norm_num,
     formatSize_eq_fileSizeTransform.1 1048576 (by norm_num) (by norm_num)⟩,
   ⟨by norm_num, by norm_num,
     formatSize_eq_fileSizeTransform.2.2 512 (by norm_num) (by norm_num)⟩⟩

/-- A concrete component state used by witnesses and counterexamples:
the component right after `runAnalysis` cleared the result fields. -/
def demoState : ComponentState :=
  { analysisPath := "C:\\evidence\\file.txt",
    selectedDetectors := ["ads_detector"],
    selectedADSMethods := ["powershell"],
    analysisResults := [],
    riskAssessment := none,
    recommendations := [],
    summary := "",
    selectedFile := none,
    isLoading := true,
    isScanningDirectory := false }

/-- C8: when validation fails - empty trimmed path with no selected file,
or no detector selected, or the ADS detector selected with no ADS method -
`runAnalysis` issues no HTTP request and leaves the component state
unchanged. -/
theorem runAnalysis_invalid_input (st : ComponentState)
    (h : (st.analysisPath.trim = "" ∧ st.selectedFile = none) ∨
         st.selectedDetectors = [] ∨
         (isADSSelected st = true ∧ st.selectedADSMethods = [])) :
    (runAnalysis st).1 = st ∧ (runAnalysis st).2.1 = none := by
  unfold runAnalysis
  split_ifs with h1 h2 h3
  · exact ⟨rfl, rfl⟩
  · exact ⟨rfl, rfl⟩
  · exact ⟨rfl, rfl⟩
  · rcases h with h | h | h
    · exact absurd h h1
    · exact absurd h h2
    · exact absurd h h3

/-- A concrete state whose detector list is empty. -/
def noDetectorState : ComponentState :=
  { demoState with selectedDetectors := [], selectedADSMethods := [] }

/-- Witness for C8: with no detector selected, `runAnalysis` leaves the
state untouched and issues no request. -/
theorem runAnalysis_invalid_input_witness :
    noDetectorState.selectedDetectors = [] ∧
    (runAnalysis noDetectorState).1 = noDetectorState ∧
    (runAnalysis noDetectorState).2.1 = none :=
  ⟨rfl, runAnalysis_invalid_input noDetectorState (Or.inr (Or.inl rfl))⟩

/-- A concrete state with the ADS detector not selected. -/
def nonAdsState : ComponentState :=
  { demoState with selectedDetectors := ["timestomp_detector"] }

/-- C3 counterexample: with the ADS detector not selected, the body sent
to `POST /api/ads/detect` does not carry the `use_win32api` field, contrary
to the claim that it always does. -/
theorem analyzePath_no_win32api_counterexample :
    isADSSelected nonAdsState = false ∧
    (analyzePath nonAdsState).2.use_win32api = none := by
  constructor
  · rfl
  · rfl

/-- C3 (amended): with the ADS detector selected, the detect body has
exactly the four fields `file_path` (the trimmed path),
`selected_detectors` (the selected ADS methods), `use_win32api` (true iff
"win32api" is among the selected ADS methods) and `scan_directory`; with
the ADS detector not selected the body carries `file_path`, the selected
detectors and `scan_directory`, and omits `use_win32api`. -/
theorem analyzePath_payload (st : ComponentState) :
    (isADSSelected st = true →
      (analyzePath st).2 =
        { file_path := st.analysisPath.trim,
          selected_detectors := st.selectedADSMethods,
          use_win32api := some (st.selectedADSMethods.contains "win32api"),
          scan_directory := pathIsDirectory st.analysisPath } ∧
      ((analyzePath st).2.use_win32api = some true ↔
        "win32api" ∈ st.selectedADSMethods)) ∧
    (isADSSelected st = false →
      (analyzePath st).2 =
        { file_path := st.analysisPath.trim,
          selected_detectors := st.selectedDetectors,
          use_win32api := none,
          scan_directory := pathIsDirectory st.analysisPath }) := by
  constructor
  · intro h
    constructor
    · simp [analyzePath, h]
    · simp [analyzePath, h]
  · intro h
    simp [analyzePath, h]

/-- A concrete state with the ADS detector selected and the win32api
method chosen. -/
def adsWin32State : ComponentState :=
  { demoState with selectedADSMethods := ["powershell", "win32api"] }

/-- Witness for C3 at a concrete ADS-selected state. -/
theorem analyzePath_payload_witness :
    isADSSelected adsWin32State = true ∧
    ((analyzePath adsWin32State).2 =
      { file_path := adsWin32State.analysisPath.trim,
        selected_detectors := adsWin32State.selectedADSMethods,
        use_win32api := some (adsWin32State.selectedADSMethods.contains "win32api"),
        scan_directory := pathIsDirectory adsWin32State.analysisPath } ∧
     ((analyzePath adsWin32State).2.use_win32api = some true ↔
       "win32api" ∈ adsWin32State.selectedADSMethods)) :=
  ⟨rfl, (analyzePath_payload adsWin32State).1 rfl⟩

/-- A no-ADS response that carries an explicitly empty recommendations
array. -/
def emptyRecsData : ApiData :=
  { ads_found := some false, recommendations := some [] }

/-- C2 counterexample: a successful scan response with `ads_found = false`
whose `recommendations` field is the empty array.  JS `||` treats the empty
array as truthy, so `handleADSResponse` stores the empty list: the
resulting recommendations are empty and do not contain
"No action required", contrary to the claim. -/
theorem handleADSResponse_empty_recs_counterexample :
    emptyRecsData.ads_found = some false ∧
    (handleADSResponse demoState emptyRecsData).1.recommendations = [] ∧
    "No action required" ∉
      (handleADSResponse demoState emptyRecsData).1.recommendations := by
  refine ⟨rfl, rfl, ?_⟩
  rw [show (handleADSResponse demoState emptyRecsData).1.recommendations = []
    from rfl]
  exact List.not_mem_nil _

/-- C2 (amended): for a response with no alternate streams found, the
default `["No action required"]` is stored exactly when the response
carries no recommendations array at all; a carried array - even an empty
one - is stored unchanged. -/
theorem handleADSResponse_default_recommendation (st : ComponentState)
    (data : ApiData) (hads : data.ads_found ≠ some true) :
    (data.recommendations = none →
      (handleADSResponse st data).1.recommendations = ["No action required"] ∧
      "No action required" ∈ (handleADSResponse st data).1.recommendations) ∧
    (∀ l, data.recommendations = some l →
      (handleADSResponse st data).1.recommendations = l) := by
  constructor
  · intro h
    constructor <;> simp [handleADSResponse, if_pos hads, h, jsOrArr]
  · intro l h
    simp [handleADSResponse, if_pos hads, h, jsOrArr]

/-- A no-ADS response without a recommendations field. -/
def noRecsData : ApiData := { ads_found := some false }

/-- Witness for C2: with the recommendations field absent, the default is
applied. -/
theorem handleADSResponse_default_recommendation_witness :
    noRecsData.ads_found ≠ some true ∧ noRecsData.recommendations = none ∧
    (handleADSResponse demoState noRecsData).1.recommendations
      = ["No action required"] ∧
    "No action required" ∈
      (handleADSResponse demoState noRecsData).1.recommendations := by
  refine ⟨by decide, rfl, ?_⟩
  exact (handleADSResponse_default_recommendation demoState noRecsData
    (by decide)).1 rfl

/-- A connection-refused HTTP error (status 0) carrying a given `detail`
string in its body. -/
def status0Error (d : String) : HttpError :=
  { status := 0, message := "Http failure response",
    error := some { detail := some d } }

/-- C4 counterexample: for HTTP status 0 the alert is a fixed connection
message - identical for two responses whose `detail` fields differ - so
the reported message is not derived from the response's detail/error
field, contrary to the claim. -/
theorem handleApiError_status0_counterexample :
    (handleApiError demoState (status0Error "database exploded")).2 =
      (handleApiError demoState (status0Error "different cause")).2 ∧
    (handleApiError demoState (status0Error "database exploded")).2 =
      "Cannot connect to the backend server. Please make sure the Flask server is running on port 5000." := by
  exact ⟨rfl, rfl⟩

/-- C4 (amended): every failure path stores no results - the result
fields are left exactly as they were (cleared by `runAnalysis`) and
`isLoading` is set to false - and raises a failure alert.  For an API
response with `success = false` the message is derived from the
detail/error fields (with fallbacks); for HTTP statuses 400 and 500 it is
derived from the error body's detail/error; for statuses 0 and 404 it is
a fixed message; for any other status it carries the HTTP error's own
message. -/
theorem apiFailure_reports_and_stores_nothing :
    (∀ (st : ComponentState) (resp : ApiResponse), resp.success = false →
      (handleApiResponse st resp).1 = {st with isLoading := false} ∧
      (handleApiResponse st resp).2 = "Analysis failed: " ++
        firstTruthyStr
          [resp.detail, resp.data.bind ApiData.error, resp.error, resp.message]
          "Unknown error") ∧
    (∀ (st : ComponentState) (err : HttpError),
      (handleApiError st err).1 = {st with isLoading := false} ∧
      ((err.status = 0 → (handleApiError st err).2 =
        "Cannot connect to the backend server. Please make sure the Flask server is running on port 5000.") ∧
       (err.status = 400 → (handleApiError st err).2 = "Bad request: " ++
         firstTruthyStr
           [err.error.bind ErrorBody.detail, err.error.bind ErrorBody.error]
           "Invalid request") ∧
       (err.status = 404 → (handleApiError st err).2 =
         "File or endpoint not found. Please check the path and ensure the API is running.") ∧
       (err.status = 500 → (handleApiError st err).2 = "Server error: " ++
         firstTruthyStr
           [err.error.bind ErrorBody.detail, err.error.bind ErrorBody.error]
           "Internal server error") ∧
       (err.status ≠ 0 → err.status ≠ 400 → err.status ≠ 404 →
         err.status ≠ 500 → (handleApiError st err).2 =
           "Error " ++ toString err.status ++ ": " ++ err.message))) := by
  constructor
  · intro st resp hfail
    unfold handleApiResponse
    rw [hfail]
    cases resp.data <;> exact ⟨rfl, rfl⟩
  · intro st err
    constructor
    · unfold handleApiError
      split_ifs <;> rfl
    · refine ⟨?_, ?_, ?_, ?_, ?_⟩
      · intro h; simp [handleApiError, h]
      · intro h; simp [handleApiError, h]
      · intro h; simp [handleApiError, h]
      · intro h; simp [handleApiError, h]
      · intro h0 h400 h404 h500
        simp [handleApiError, h0, h400, h404, h500]

/-- A failed API response with only a `detail` field. -/
def failResponse : ApiResponse :=
  { success := false, detail := some "File not found: C:\\missing.txt" }

/-- Witness for C4: a concrete failed response leaves the cleared state
cleared and reports the detail-derived message; a concrete 404 gets the
fixed not-found message. -/
theorem apiFailure_reports_and_stores_nothing_witness :
    failResponse.success = false ∧
    (handleApiResponse demoState failResponse).1 =
      {demoState with isLoading := false} ∧
    (handleApiResponse demoState failResponse).2 =
      "Analysis failed: File not found: C:\\missing.txt" ∧
    (handleApiError demoState { status := 404, message := "Not Found" }).2 =
      "File or endpoint not found. Please check the path and ensure the API is running." := by
  refine ⟨rfl, ?_, ?_, ?_⟩
  · exact (apiFailure_reports_and_stores_nothing.1 demoState failResponse rfl).1
  · rw [(apiFailure_reports_and_stores_nothing.1 demoState failResponse rfl).2]
    rfl
  · exact ((apiFailure_reports_and_stores_nothing.2 demoState
      { status := 404, message := "Not Found" }).2.2.2.1 rfl)

/-- The per-file predicate "scanned successfully and alternate streams
were found". -/
def fileHasADS (f : FileScan) : Bool :=
  match f with
  | .ok true _ => true
  | _ => false

/-- Folding outcomes into a summary adds the file count and the
successful-with-ADS count. -/
theorem scanDirectory_foldl_counts (files : List FileScan) (acc : ScanSummary) :
    (files.foldl scanDirectoryStep acc).total_files_scanned =
      acc.total_files_scanned + files.length ∧
    (files.foldl scanDirectoryStep acc).files_with_ads =
      acc.files_with_ads + files.countP fileHasADS := by
  induction files generalizing acc with
  | nil => simp
  | cons f rest ih =>
    rw [List.foldl_cons]
    obtain ⟨ih1, ih2⟩ := ih (scanDirectoryStep acc f)
    refine ⟨?_, ?_⟩
    · rw [ih1, List.length_cons]
      cases f <;> simp [scanDirectoryStep] <;> omega
    · rw [ih2, List.countP_cons]
      cases f with
      | ok adsFound n =>
        cases adsFound <;> simp [scanDirectoryStep, fileHasADS] <;> omega
      | permissionDenied => simp [scanDirectoryStep, fileHasADS]

/-- C5: a directory scan over files 1..N-1 readable and file N
permission-denied completes - the orchestrator ends in `Complete`, never
`Failed` - with `total_files_scanned = N` and `files_with_ads` counting
only the successfully scanned files. -/
theorem scanDirectory_partial_failure (pre : List FileScan) (ts : String)
    (hok : ∀ f ∈ pre, f ≠ FileScan.permissionDenied) :
    (scanDirectory true (pre ++ [FileScan.permissionDenied]) ts).1.total_files_scanned
      = pre.length + 1 ∧
    (scanDirectory true (pre ++ [FileScan.permissionDenied]) ts).1.files_with_ads
      = pre.countP fileHasADS ∧
    (scanDirectory true (pre ++ [FileScan.permissionDenied]) ts).2
      ≠ OrchestratorState.Failed := by
  have h := scanDirectory_foldl_counts (pre ++ [FileScan.permissionDenied])
    { total_files_scanned := 0, files_with_ads := 0,
      total_ads_streams := 0, scan_timestamp := ts }
  refine ⟨?_, ?_, ?_⟩
  · rw [show (scanDirectory true (pre ++ [FileScan.permissionDenied]) ts).1 =
      (pre ++ [FileScan.permissionDenied]).foldl scanDirectoryStep
        { total_files_scanned := 0, files_with_ads := 0,
          total_ads_streams := 0, scan_timestamp := ts } from rfl, h.1]
    simp
  · rw [show (scanDirectory true (pre ++ [FileScan.permissionDenied]) ts).1 =
      (pre ++ [FileScan.permissionDenied]).foldl scanDirectoryStep
        { total_files_scanned := 0, files_with_ads := 0,
          total_ads_streams := 0, scan_timestamp := ts } from rfl, h.2]
    simp [List.countP_append, fileHasADS]
  · simp [scanDirectory]

/-- Witness for C5 with two readable files (one carrying ADS) followed by
a permission-denied file. -/
theorem scanDirectory_partial_failure_witness :
    (∀ f ∈ [FileScan.ok true 2, FileScan.ok false 0],
      f ≠ FileScan.permissionDenied) ∧
    (scanDirectory true
      ([FileScan.ok true 2, FileScan.ok false 0] ++ [FileScan.permissionDenied])
      "2026-10-11").1.total_files_scanned = 3 ∧
    (scanDirectory true
      ([FileScan.ok true 2, FileScan.ok false 0] ++ [FileScan.permissionDenied])
      "2026-10-11").1.files_with_ads = 1 ∧
    (scanDirectory true
      ([FileScan.ok true 2, FileScan.ok false 0] ++ [FileScan.permissionDenied])
      "2026-10-11").2 ≠ OrchestratorState.Failed :=
  ⟨by decide,
   (scanDirectory_partial_failure [FileScan.ok true 2, FileScan.ok false 0]
      "2026-10-11" (by decide)).1,
   (scanDirectory_partial_failure [FileScan.ok true 2, FileScan.ok false 0]
      "2026-10-11" (by decide)).2.1,
   (scanDirectory_partial_failure [FileScan.ok true 2, FileScan.ok false 0]
      "2026-10-11" (by decide)).2.2⟩

/-- `foldr max 0` is invariant under permutation. -/
theorem foldr_max_perm {l₁ l₂ : List ℕ} (h : l₁.Perm l₂) :
    l₁.foldr max 0 = l₂.foldr max 0 := by
  induction h with
  | nil => rfl
  | cons x _ ih => simp [List.foldr_cons, ih]
  | swap x y l => simp [List.foldr_cons, max_left_comm]
  | trans _ _ ih₁ ih₂ => exact ih₁.trans ih₂

/-- C6: the aggregate risk score is the same for every discovery order of
the stream records, and adding a record never decreases it. -/
theorem aggregateScore_order_independent_monotone :
    (∀ l₁ l₂ : List StreamRecord, l₁.Perm l₂ →
      aggregateScore l₁ = aggregateScore l₂) ∧
    (∀ (r : StreamRecord) (l : List StreamRecord),
      aggregateScore l ≤ aggregateScore (r :: l)) := by
  constructor
  · intro l₁ l₂ h
    exact foldr_max_perm (h.map StreamRecord.risk_score)
  · intro r l
    simp only [aggregateScore, List.map_cons, List.foldr_cons]
    exact le_max_right _ _

/-- A benign stream record. -/
def recLow : StreamRecord :=
  { name := "Zone.Identifier", size_bytes := 26,
    is_executable := false, is_encrypted := false, risk_score := 40 }

/-- A high-risk stream record. -/
def recHigh : StreamRecord :=
  { name := "payload.exe", size_bytes := 20480,
    is_executable := true, is_encrypted := true, risk_score := 90 }

/-- Witness for C6 on a concrete two-record permutation. -/
theorem aggregateScore_order_independent_monotone_witness :
    [recLow, recHigh].Perm [recHigh, recLow] ∧
    aggregateScore [recLow, recHigh] = aggregateScore [recHigh, recLow] ∧
    aggregateScore [recHigh, recLow] ≤ aggregateScore [recLow, recHigh, recLow] :=
  ⟨List.Perm.swap recHigh recLow [],
   aggregateScore_order_independent_monotone.1 _ _
     (List.Perm.swap recHigh recLow []),
   aggregateScore_order_independent_monotone.2 recLow [recHigh, recLow]⟩

/-- The byte-value counts of a content sum to its length. -/
theorem sum_count_univ (c : List (Fin 256)) :
    (∑ v : Fin 256, c.count v) = c.length := by
  induction c with
  | nil => simp
  | cons a l ih =>
    have : ∀ v : Fin 256, (a :: l).count v = l.count v + if v = a then 1 else 0 := by
      intro v
      rcases eq_or_ne v a with rfl | hv
      · simp
      · simp [hv]
    simp only [this, Finset.sum_add_distrib, ih, Finset.sum_ite_eq',
      Finset.mem_univ, if_true, List.length_cons]

/-- The byte-value relative frequencies of a nonempty content sum to 1. -/
theorem sum_freq_eq_one {c : List (Fin 256)} (hc : c ≠ []) :
    (∑ v : Fin 256, (c.count v : ℝ) / (c.length : ℝ)) = 1 := by
  have hn : (c.length : ℝ) ≠ 0 := by
    simpa using List.length_pos.mpr hc |>.ne'
  rw [← Finset.sum_div]
  rw [show (∑ v : Fin 256, (c.count v : ℝ)) = (c.length : ℝ) by
    push_cast [← sum_count_univ c]
    rfl]
  exact div_self hn

/-- `log 256 = 8 * log 2`. -/
theorem log_256_eq : Real.log 256 = 8 * Real.log 2 := by
  rw [show (256 : ℝ) = 2 ^ 8 by norm_num, Real.log_pow]
  norm_num

/-- The value of `negMulLog` at the uniform frequency `1/256`. -/
theorem negMulLog_inv_256 :
    Real.negMulLog ((256 : ℝ)⁻¹) = (256 : ℝ)⁻¹ * Real.log 256 := by
  rw [Real.negMulLog, Real.log_inv]
  ring

/-- The entropy of the empty content is 0. -/
theorem entropy_nil : entropy ([] : List (Fin 256)) = 0 := by
  simp [entropy, entropyNats]

/-- The entropy of a nonempty constant content is 0: its histogram puts
relative frequency 1 on one value and 0 on the rest. -/
theorem entropy_eq_zero_of_constant {c : List (Fin 256)} (a : Fin 256)
    (hconst : ∀ x ∈ c, x = a) : entropy c = 0 := by
  have hzero : entropyNats c = 0 := by
    apply Finset.sum_eq_zero
    intro v _
    rcases eq_or_ne v a with rfl | hv
    · rcases eq_or_ne c [] with rfl | hne
      · simp
      · have hcount : c.count v = c.length :=
          List.count_eq_length.mpr fun b hb => (hconst b hb).symm
        have hn : (c.length : ℝ) ≠ 0 := by
          simpa using List.length_pos.mpr hne |>.ne'
        rw [hcount, div_self hn]
        simp [Real.negMulLog]
    · have hcount : c.count v = 0 :=
        List.count_eq_zero.mpr fun hmem => hv (hconst v hmem)
      rw [hcount]
      simp
  simp [entropy, hzero]

/-- The entropy of a content in which every byte value occurs the same
positive number of times is exactly 8 bits per byte. -/
theorem entropy_eq_eight_of_uniform {c : List (Fin 256)} (m : ℕ)
    (hm : 0 < m) (huni : ∀ v : Fin 256, c.count v = m) : entropy c = 8 := by
  have hlen : c.length = 256 * m := by
    rw [← sum_count_univ c]
    simp only [huni]
    rw [Finset.sum_const, Finset.card_univ, Fintype.card_fin, smul_eq_mul]
  have hfreq : ∀ v : Fin 256, (c.count v : ℝ) / (c.length : ℝ) = (256 : ℝ)⁻¹ := by
    intro v
    rw [huni v, hlen]
    have hm' : (m : ℝ) ≠ 0 := Nat.cast_ne_zero.mpr hm.ne'
    push_cast
    field_simp
    ring
  have hnats : entropyNats c = Real.log 256 := by
    unfold entropyNats
    simp only [hfreq, negMulLog_inv_256]
    rw [Finset.sum_const, Finset.card_univ, Fintype.card_fin, nsmul_eq_mul]
    push_cast
    rw [← mul_assoc]
    norm_num
  rw [entropy, hnats, log_256_eq]
  have h2 : Real.log 2 ≠ 0 := (Real.log_pos (by norm_num)).ne'
  field_simp

/-- A content containing two distinct byte values has strictly positive
entropy. -/
theorem entropyNats_pos {c : List (Fin 256)} (a b : Fin 256)
    (ha : a ∈ c) (hb : b ∈ c) (hab : a ≠ b) : 0 < entropyNats c := by
  have hne : c ≠ [] := by rintro rfl; simp at ha
  have hn : 0 < c.length := List.length_pos.mpr hne
  have hnR : (0 : ℝ) < (c.length : ℝ) := by exact_mod_cast hn
  have hterm_nonneg : ∀ v : Fin 256,
      0 ≤ Real.negMulLog ((c.count v : ℝ) / (c.length : ℝ)) := by
    intro v
    apply Real.negMulLog_nonneg
    · positivity
    · rw [div_le_one hnR]
      exact_mod_cast List.count_le_length v c
  have ha1 : 0 < c.count a := List.count_pos_iff.mpr ha
  have hb1 : 0 < c.count b := List.count_pos_iff.mpr hb
  have hsum_pair : c.count a + c.count b ≤ c.length := by
    rw [← sum_count_univ c]
    calc c.count a + c.count b
        = ∑ v ∈ ({a, b} : Finset (Fin 256)), c.count v :=
          (Finset.sum_pair (f := fun v => c.count v) hab).symm
      _ ≤ ∑ v : Fin 256, c.count v :=
          Finset.sum_le_sum_of_subset (Finset.subset_univ _)
  have haltn : c.count a < c.length := by omega
  have hpa0 : (0 : ℝ) < (c.count a : ℝ) / (c.length : ℝ) := by positivity
  have hpa1 : (c.count a : ℝ) / (c.length : ℝ) < 1 := by
    rw [div_lt_one hnR]
    exact_mod_cast haltn
  have hterm_pos :
      0 < Real.negMulLog ((c.count a : ℝ) / (c.length : ℝ)) := by
    have hlog : Real.log ((c.count a : ℝ) / (c.length : ℝ)) < 0 :=
      Real.log_neg hpa0 hpa1
    have := mul_pos hpa0 (neg_pos.mpr hlog)
    simpa [Real.negMulLog, mul_comm, mul_neg] using this
  exact Finset.sum_pos' (fun v _ => hterm_nonneg v)
    ⟨a, Finset.mem_univ a, hterm_pos⟩

/-- Strict Jensen bound: a content whose byte-value counts are not all
equal has entropy strictly below `log 256` nats. -/
theorem entropyNats_lt_log256 {c : List (Fin 256)} (j k : Fin 256)
    (hjk : c.count j ≠ c.count k) : entropyNats c < Real.log 256 := by
  have hne : c ≠ [] := by rintro rfl; simp at hjk
  have hnR : (0 : ℝ) < (c.length : ℝ) := by
    exact_mod_cast List.length_pos.mpr hne
  have hn0 : (c.length : ℝ) ≠ 0 := hnR.ne'
  have hsum1 : (∑ v : Fin 256, (c.count v : ℝ) / (c.length : ℝ)) = 1 :=
    sum_freq_eq_one hne
  have hpjk : (c.count j : ℝ) / (c.length : ℝ)
      ≠ (c.count k : ℝ) / (c.length : ℝ) := by
    intro h
    apply hjk
    rw [div_eq_div_iff hn0 hn0] at h
    exact_mod_cast mul_right_cancel₀ hn0 h
  have hjen := Real.strictConcaveOn_negMulLog.lt_map_sum
    (t := Finset.univ) (w := fun _ : Fin 256 => (256 : ℝ)⁻¹)
    (p := fun v : Fin 256 => (c.count v : ℝ) / (c.length : ℝ))
    (fun i _ => by norm_num)
    (by rw [Finset.sum_const, Finset.card_univ, Fintype.card_fin,
          nsmul_eq_mul]; norm_num)
    (fun i _ => Set.mem_Ici.mpr
      (div_nonneg (Nat.cast_nonneg _) (Nat.cast_nonneg _)))
    ⟨j, Finset.mem_univ j, k, Finset.mem_univ k, hpjk⟩
  have hlhs : (∑ i : Fin 256,
      (256 : ℝ)⁻¹ • Real.negMulLog ((c.count i : ℝ) / (c.length : ℝ))) =
      (256 : ℝ)⁻¹ * entropyNats c := by
    simp only [smul_eq_mul, ← Finset.mul_sum]
    rfl
  have hrhs : (∑ i : Fin 256,
      (256 : ℝ)⁻¹ • ((c.count i : ℝ) / (c.length : ℝ))) = (256 : ℝ)⁻¹ := by
    simp only [smul_eq_mul, ← Finset.mul_sum]
    rw [hsum1, mul_one]
  rw [hlhs, hrhs, negMulLog_inv_256] at hjen
  exact (mul_lt_mul_left (by norm_num : (0 : ℝ) < (256 : ℝ)⁻¹)).mp hjen

/-- C7 (amended): the classifier entropy is 0 on empty content and on
content consisting of a single repeated byte value; exactly 8.0 when all
256 byte values occur with the same positive frequency; and strictly
between 0 and 8 whenever the content holds at least two distinct byte
values and the byte-value counts are not all equal. -/
theorem entropy_range (c : List (Fin 256)) :
    (c = [] → entropy c = 0) ∧
    (∀ m : ℕ, 0 < m → (∀ v : Fin 256, c.count v = m) → entropy c = 8) ∧
    (∀ a : Fin 256, (∀ x ∈ c, x = a) → entropy c = 0) ∧
    ((∃ a ∈ c, ∃ b ∈ c, a ≠ b) →
      (∃ j k : Fin 256, c.count j ≠ c.count k) →
      0 < entropy c ∧ entropy c < 8) := by
  refine ⟨?_, ?_, ?_, ?_⟩
  · rintro rfl
    exact entropy_nil
  · intro m hm huni
    exact entropy_eq_eight_of_uniform m hm huni
  · intro a hconst
    exact entropy_eq_zero_of_constant a hconst
  · rintro ⟨a, ha, b, hb, hab⟩ ⟨j, k, hjk⟩
    have h2 : 0 < Real.log 2 := Real.log_pos (by norm_num)
    constructor
    · exact div_pos (entropyNats_pos a b ha hb hab) h2
    · rw [entropy]
      calc entropyNats c / Real.log 2
          < Real.log 256 / Real.log 2 :=
            (div_lt_div_iff_of_pos_right h2).mpr (entropyNats_lt_log256 j k hjk)
        _ = 8 := by rw [log_256_eq]; field_simp

/-- C7 counterexample: the two-byte content `[0, 0]` is nonempty and its
byte-value counts are not all equal, so the claim puts its entropy
strictly between 0 and 8 - but its entropy is 0. -/
theorem entropy_constant_content_counterexample :
    ([(0 : Fin 256), 0] : List (Fin 256)) ≠ [] ∧
    (∃ j k : Fin 256,
      ([(0 : Fin 256), 0] : List (Fin 256)).count j ≠
        ([(0 : Fin 256), 0] : List (Fin 256)).count k) ∧
    entropy [(0 : Fin 256), 0] = 0 := by
  refine ⟨by simp, ⟨0, 1, by decide⟩, ?_⟩
  exact entropy_eq_zero_of_constant 0 (by intro x hx; simpa using hx)

/-- Witness for C7 on the content `[0, 0, 1]`: two distinct values,
non-uniform counts, entropy strictly between 0 and 8. -/
theorem entropy_range_witness :
    (∃ a ∈ ([(0 : Fin 256), 0, 1] : List (Fin 256)),
      ∃ b ∈ ([(0 : Fin 256), 0, 1] : List (Fin 256)), a ≠ b) ∧
    (∃ j k : Fin 256,
      ([(0 : Fin 256), 0, 1] : List (Fin 256)).count j ≠
        ([(0 : Fin 256), 0, 1] : List (Fin 256)).count k) ∧
    (0 < entropy [(0 : Fin 256), 0, 1] ∧ entropy [(0 : Fin 256), 0, 1] < 8) :=
  ⟨⟨0, by decide, 1, by decide, by decide⟩, ⟨0, 1, by decide⟩,
   (entropy_range [(0 : Fin 256), 0, 1]).2.2.2
     ⟨0, by decide, 1, by decide, by decide⟩ ⟨0, 1, by decide⟩⟩
